import Mathlib

/-!
Verification development for the itom-chat-ui client core: the streaming
response lifecycle (`useStreamingResponse`), the SSE-like event-stream
decoder, the realtime websocket channel (`useWebSocket`), the slash-command
registry (`commands.ts`) and the chat session orchestration (`ChatContext`).

Each definition is a shallow embedding of the corresponding TypeScript
source. JavaScript `undefined`/`null` data fields are modelled as `Option`,
JS falsy-string checks (`x || y`) as explicit `if x = "" then y else x`,
timestamps (`Date.now()`) as a `Nat` parameter threaded into the operations,
and the random suffixes of client-generated ids are abstracted away (only
the deterministic part of the id is kept; no claim depends on id contents).
-/

namespace ItomChat

/-- `StreamErrorData` from `types/streaming.ts`: `{code, message}`. -/
structure StreamErrorData where
  code : String
  message : String
deriving Repr, DecidableEq

/-- `StreamingStatus` from `types/streaming.ts` (a six-way tagged union). -/
inductive StreamingStatus where
  | idle
  | connecting
  | streaming
  | complete
  | error
  | clarification
deriving Repr, DecidableEq

/-- `ClarificationData` from `types/streaming.ts`. -/
structure ClarificationData where
  question : String
  options : List String
  pending_message_token : String
  message_id : Option String := none
deriving Repr, DecidableEq

/-- `StreamingState` from `types/streaming.ts`. `useStreamingResponse.ts`
(`INITIAL_STATE`) never assigns `clarificationData`, so in the embedding
the field simply stays `none` along every code path of the hook. -/
structure StreamingState where
  status : StreamingStatus
  partialContent : String
  fullContent : Option String
  messageId : Option String
  agentId : Option String
  error : Option StreamErrorData
  hasReceivedFirstToken : Bool
  clarificationData : Option ClarificationData
deriving Repr, DecidableEq

/-- `INITIAL_STATE` from `useStreamingResponse.ts`. -/
def INITIAL_STATE : StreamingState :=
  { status := .idle
    partialContent := ""
    fullContent := none
    messageId := none
    agentId := none
    error := none
    hasReceivedFirstToken := false
    clarificationData := none }

/-- A decoded SSE event as consumed by the `switch (event)` statement of
`startStreaming`. The payload fields are the ones the switch reads; each is
an `Option` because the JS code defensively applies `?? default` to every
field of the untrusted `data` object. `unknown` covers any other event
name (hitting the `default:` case). -/
inductive SSEEvent where
  | stream_start (message_id agent_id : Option String)
  | token (tok : Option String)
  | stream_end (full_content message_id agent_id : Option String)
  | errorEvent (code message : Option String)
  | clarification (question : Option String) (options : List String)
      (pending_message_token : Option String)
  | unknown (name : String)
deriving Repr, DecidableEq

/-- A callback invocation emitted by the hook (`callbacksRef.current.*`). -/
inductive StreamCallback where
  | onStreamStart (messageId agentId : String)
  | onToken (tok accumulated : String)
  | onStreamEnd (fullContent messageId agentId : String)
  | onError (e : StreamErrorData)
deriving Repr, DecidableEq

/-- One iteration of the `switch (event)` statement in `startStreaming`
(`useStreamingResponse.ts` lines 256-317). `acc` is the closure-local
`accumulated` variable; the result is the new `accumulated`, the new React
state, and the list of callbacks invoked (always zero or one).

Faithful details: `stream_start` applies unconditionally (the code does not
check the current status); `token` sets `status: 'streaming'` even when not
preceded by `stream_start`; `stream_end` implements the JS falsy merge
`messageId || prev.messageId`; `clarification` and unknown names fall into
the `default:` case, which does nothing. -/
def processEvent (acc : String) (st : StreamingState) (ev : SSEEvent) :
    String × StreamingState × List StreamCallback :=
  match ev with
  | .stream_start mid aid =>
      let messageId := mid.getD ""
      let agentId := aid.getD ""
      (acc,
        { st with status := .streaming, messageId := some messageId,
                  agentId := some agentId },
        [.onStreamStart messageId agentId])
  | .token t =>
      let tok := t.getD ""
      let acc' := acc ++ tok
      (acc',
        { st with status := .streaming, partialContent := acc',
                  hasReceivedFirstToken := true },
        [.onToken tok acc'])
  | .stream_end fc mid aid =>
      let fullContent := fc.getD acc
      let messageId := mid.getD ""
      let agentId := aid.getD ""
      (acc,
        { st with status := .complete, partialContent := fullContent,
                  fullContent := some fullContent,
                  messageId := if messageId = "" then st.messageId else some messageId,
                  agentId := if agentId = "" then st.agentId else some agentId },
        [.onStreamEnd fullContent messageId agentId])
  | .errorEvent c m =>
      let e : StreamErrorData :=
        { code := c.getD "UNKNOWN_ERROR"
          message := m.getD "An unknown error occurred." }
      (acc, { st with status := .error, error := some e }, [.onError e])
  | .clarification _ _ _ => (acc, st, [])
  | .unknown _ => (acc, st, [])

/-- Process a list of decoded events in order, collecting the callbacks. -/
def runEvents (acc : String) (st : StreamingState) :
    List SSEEvent → String × StreamingState × List StreamCallback
  | [] => (acc, st, [])
  | ev :: rest =>
      let r := processEvent acc st ev
      let r' := runEvents r.1 r.2.1 rest
      (r'.1, r'.2.1, r.2.2 ++ r'.2.2)

/-- The post-loop graceful completion (`useStreamingResponse.ts` lines
323-332): if the body ended without a `stream_end` event while still
`streaming`, mark complete with `accumulated || prev.partialContent`. -/
def finishStream (acc : String) (st : StreamingState) : StreamingState :=
  if st.status = .streaming then
    { st with status := .complete,
              fullContent := some (if acc = "" then st.partialContent else acc) }
  else st

/-- The body of the streaming `POST` request issued by `startStreaming`:
`{content, conversation_id, agent_target}`. Conversation ids are modelled
as `Nat` (they are opaque client-generated strings in the source; the
embedding uses a fresh-supply counter so that freshness is provable). -/
structure StreamRequest where
  content : String
  conversation_id : Nat
  agent_target : Option String
deriving Repr, DecidableEq

/-- The mutable environment of one mounted `useStreamingResponse` hook:
the React `state`, the `abortControllerRef` (modelled as an id drawn from
a fresh supply `nextCtrl`), the set of controllers whose `abort()` has
been called, and the closure-local `accumulated` variable of each request
(`accs`, keyed by controller id). -/
structure HookState where
  state : StreamingState
  currentCtrl : Option Nat
  aborted : List Nat
  nextCtrl : Nat
  accs : Nat → String

/-- `startStreaming` (`useStreamingResponse.ts` lines 157-194), state part:
abort any existing stream, install a fresh `AbortController`, reset the
React state to `connecting`, and initialise the closure-local accumulator.
The returned `StreamRequest` is the body handed to `fetch`. -/
def startStreamingH (content : String) (conversationId : Nat)
    (agentTarget : Option String) (s : HookState) : HookState × StreamRequest :=
  ({ state := { INITIAL_STATE with status := .connecting }
     currentCtrl := some s.nextCtrl
     aborted :=
       match s.currentCtrl with
       | some c => c :: s.aborted
       | none => s.aborted
     nextCtrl := s.nextCtrl + 1
     accs := fun c => if c = s.nextCtrl then "" else s.accs c },
   { content := content, conversation_id := conversationId,
     agent_target := agentTarget })

/-- `abortStreaming` (`useStreamingResponse.ts` lines 119-137): abort the
current controller, then transition to `error`/`STREAM_ABORTED` only when
the status is `streaming` or `connecting` (otherwise the React state is
returned unchanged). -/
def abortStreamingH (s : HookState) : HookState :=
  { s with
    currentCtrl := none
    aborted :=
      match s.currentCtrl with
      | some c => c :: s.aborted
      | none => s.aborted
    state :=
      if s.state.status = .streaming ∨ s.state.status = .connecting then
        { s.state with status := .error,
                       error := some { code := "STREAM_ABORTED",
                                       message := "Streaming was cancelled by the user." } }
      else s.state }

/-- `resetState` (`useStreamingResponse.ts` lines 142-148): abort the
current controller and restore `INITIAL_STATE`. -/
def resetStateH (s : HookState) : HookState :=
  { s with
    currentCtrl := none
    aborted :=
      match s.currentCtrl with
      | some c => c :: s.aborted
      | none => s.aborted
    state := INITIAL_STATE }

/-- One resolution of `reader.read()` on the stream owned by controller
`cid`, delivering decoded event `ev`. Per the Fetch/AbortController
contract, once `controller.abort()` has been called every pending or
subsequent `read()` rejects with an `AbortError`; the hook's catch handler
(lines 334-338) returns without touching state in that case. Hence a
delivery on an aborted controller leaves the hook state unchanged and
invokes no callback; otherwise the event is applied via `processEvent`
using that stream's own accumulator. -/
def deliverEvent (cid : Nat) (ev : SSEEvent) (s : HookState) :
    HookState × List StreamCallback :=
  if cid ∈ s.aborted then (s, [])
  else
    let r := processEvent (s.accs cid) s.state ev
    ({ s with state := r.2.1,
              accs := fun c => if c = cid then r.1 else s.accs c },
     r.2.2)

/-- The promise `catch` handler (`useStreamingResponse.ts` lines 334-353):
an `AbortError` (user cancellation) is swallowed with no state change; any
other rejection transitions to `error` with code `NETWORK_ERROR` and
invokes `onError`. -/
def handleCatch (isAbortError : Bool) (message : Option String)
    (s : HookState) : HookState × List StreamCallback :=
  if isAbortError then (s, [])
  else
    let e : StreamErrorData :=
      { code := "NETWORK_ERROR"
        message := message.getD "A network error occurred while streaming." }
    ({ s with state := { s.state with status := .error, error := some e } },
     [.onError e])

/-! ## Event-stream decoder

The read loop of `startStreaming` (`useStreamingResponse.ts` lines
234-252): each chunk is decoded to text (`TextDecoder` with
`{stream: true}`, whose own contract makes the byte-to-text layer
boundary-invariant, so chunks are modelled at character granularity),
appended to a carry-over buffer, the buffer is split on the double-newline
delimiter (`buffer.split('\n\n')`, leftmost non-overlapping matching),
every part except the last is emitted as a complete block, and the last
part becomes the new buffer. -/

/-- JS `\s` / trimmed-whitespace character class (the protocol text and
the registry's templates only ever contain plain spaces and newlines). -/
def isJsWs (c : Char) : Bool :=
  c = ' ' ∨ c = '\t' ∨ c = '\n' ∨ c = '\r' ∨ c = '\x0b' ∨ c = '\x0c'

/-- JS `String.prototype.trim()` (char-list implementation, so that the
kernel can evaluate it). -/
def jsTrim (s : String) : String :=
  String.mk (((s.toList.dropWhile isJsWs).reverse.dropWhile isJsWs).reverse)

/-- JS `String.prototype.startsWith(pre)`. -/
def startsWithStr (pre s : String) : Bool :=
  pre.toList.isPrefixOf s.toList

/-- JS `String.prototype.toLowerCase()` (over the ASCII command names). -/
def lowerStr (s : String) : String :=
  String.mk (s.toList.map Char.toLower)

/-- JS `String.prototype.split('\n\n')`: leftmost, non-overlapping,
greedy scan for the two-character delimiter. -/
def splitBlocks : List Char → List (List Char)
  | [] => [[]]
  | [c] => [[c]]
  | c :: d :: rest =>
      if c = '\n' ∧ d = '\n' then [] :: splitBlocks rest
      else
        match splitBlocks (d :: rest) with
        | [] => [[c]]
        | x :: xs => (c :: x) :: xs

/-- The decoder loop: fold the chunks through the carry-over buffer,
emitting all complete blocks; returns the emitted blocks and the final
(unprocessed) buffer. When the stream signals `done`, the loop exits and
the trailing buffer is discarded, exactly as in the source. -/
def runDecoder (buffer : List Char) :
    List (List Char) → List (List Char) × List Char
  | [] => ([], buffer)
  | chunk :: rest =>
      let parts := splitBlocks (buffer ++ chunk)
      let r := runDecoder (parts.getLastD []) rest
      (parts.dropLast ++ r.1, r.2)

/-- `parseSSELine` (`useStreamingResponse.ts` lines 100-114): trim the
block, require the `data: ` head, and JSON-parse the remainder.
`JSON.parse` is a host builtin, so it is taken as a parameter
`jsonParse`; malformed JSON yields `none` there, which the caller skips
silently. -/
def parseSSELine {α : Type} (jsonParse : String → Option α)
    (line : String) : Option α :=
  let trimmed := jsTrim line
  if trimmed = "" ∨ ¬ startsWithStr "data: " trimmed then none
  else jsonParse (String.mk (trimmed.toList.drop 6))

/-- The full decode pipeline for a chunked response body: run the
carry-over decoder from an empty buffer and parse each emitted block,
dropping the ones `parseSSELine` rejects (`if (!parsed) continue`). -/
def decodeStream {α : Type} (jsonParse : String → Option α)
    (chunks : List (List Char)) : List α :=
  (runDecoder [] chunks).1.filterMap fun b => parseSSELine jsonParse (String.mk b)

/-! ## Realtime channel (`useWebSocket.ts`) -/

/-- `ConnectionStatus` from `useWebSocket.ts`. -/
inductive ConnectionStatus where
  | connecting
  | connected
  | disconnected
  | reconnecting
deriving Repr, DecidableEq

/-- `BASE_RECONNECT_DELAY_MS` (1s). -/
def BASE_RECONNECT_DELAY_MS : Nat := 1000

/-- `MAX_RECONNECT_DELAY_MS` (30s). -/
def MAX_RECONNECT_DELAY_MS : Nat := 30000

/-- `getReconnectDelay` (`useWebSocket.ts` lines 128-131):
`min(BASE * 2^attempts, MAX)`. -/
def getReconnectDelay (reconnectAttempts : Nat) : Nat :=
  min (BASE_RECONNECT_DELAY_MS * 2 ^ reconnectAttempts) MAX_RECONNECT_DELAY_MS

/-- The mutable refs and state of one mounted `useWebSocket` hook that the
reconnect policy touches: `connectionStatus`, `reconnectAttemptsRef`, and
whether the heartbeat interval is running. -/
structure WSState where
  status : ConnectionStatus
  reconnectAttempts : Nat
  heartbeatActive : Bool
deriving Repr, DecidableEq

/-- `ws.onopen` (`useWebSocket.ts` lines 185-191): reset the attempt
counter to 0, become `connected`, start the heartbeat. -/
def handleOpen (s : WSState) : WSState :=
  { s with reconnectAttempts := 0, status := .connected, heartbeatActive := true }

/-- `ws.onclose` (`useWebSocket.ts` lines 204-221): stop the heartbeat and
become `disconnected`; then, only for an abnormal closure (`code !== 1000`)
with the attempt counter still below `maxReconnectAttempts`, compute the
backoff delay from the current counter, increment the counter, become
`reconnecting` and schedule a reconnect after that delay. The second
component is the scheduled delay (`none` when no reconnect is scheduled). -/
def handleClose (maxReconnectAttempts : Nat) (code : Nat) (s : WSState) :
    WSState × Option Nat :=
  let s1 := { s with heartbeatActive := false, status := .disconnected }
  if code ≠ 1000 ∧ s.reconnectAttempts < maxReconnectAttempts then
    let delay := getReconnectDelay s.reconnectAttempts
    ({ s1 with reconnectAttempts := s.reconnectAttempts + 1,
               status := .reconnecting },
     some delay)
  else (s1, none)

/-- The scheduled reconnect timer firing (`connect()` retried): the socket
enters `connecting`; the attempt counter is untouched. -/
def connectWS (s : WSState) : WSState :=
  { s with status := .connecting }

/-- A run of consecutive closures with no successful open in between: each
closure is handled, the scheduled reconnect (if any) fires and re-connects,
and the next closure arrives. Collects the scheduled delays in order. -/
def runCloses (maxReconnectAttempts : Nat) :
    List Nat → WSState → WSState × List Nat
  | [], s => (s, [])
  | code :: rest, s =>
      let r := handleClose maxReconnectAttempts code s
      let r' := runCloses maxReconnectAttempts rest (connectWS r.1)
      (r'.1, r.2.toList ++ r'.2)

/-! ## Slash-command registry (`lib/commands.ts`) -/

/-- `CommandCategory`. -/
inductive CommandCategory where
  | itom
  | cmdb
  | general
deriving Repr, DecidableEq

/-- `categoryLabels`. -/
def categoryLabels : CommandCategory → String
  | .itom => "ITOM Operations"
  | .cmdb => "CMDB Queries"
  | .general => "General"

/-- `SlashCommand` registry entry. -/
structure SlashCommand where
  name : String
  description : String
  category : CommandCategory
  paramHint : Option String := none
  agentTarget : Option String
  promptTemplate : Option String := none
deriving Repr, DecidableEq

/-- The `/ci-search` registry entry (`commands.ts` lines 93-100). -/
def ciSearchCommand : SlashCommand :=
  { name := "/ci-search"
    description := "Search configuration items"
    category := .cmdb
    paramHint := some "<query>"
    agentTarget := some "cmdb-agent"
    promptTemplate := some "Search for configuration items matching: {args}" }

/-- The static command registry `commands` (`commands.ts` lines 50-275),
in source order. -/
def commands : List SlashCommand :=
  [ { name := "/discover", description := "Start network discovery scan",
      category := .itom, paramHint := some "[target]",
      agentTarget := some "discovery-agent",
      promptTemplate := some "Run a network discovery scan targeting {args}" },
    { name := "/audit", description := "Run compliance audit",
      category := .itom, paramHint := some "[scope]",
      agentTarget := some "itom-auditor",
      promptTemplate := some "Run a compliance audit on {args}" },
    { name := "/assets", description := "Query asset inventory",
      category := .itom, paramHint := some "[filter]",
      agentTarget := some "asset-agent",
      promptTemplate := some "Query the asset inventory for {args}" },
    { name := "/docs", description := "Generate documentation",
      category := .itom, paramHint := some "[topic]",
      agentTarget := some "itom-documentator",
      promptTemplate := some "Generate documentation for {args}" },
    { name := "/status", description := "Show system health",
      category := .itom, agentTarget := some "orchestrator",
      promptTemplate := some "Show the current system health status for all ITOM agents" },
    ciSearchCommand,
    { name := "/ci-count", description := "Count CIs by class",
      category := .cmdb, paramHint := some "[class]",
      agentTarget := some "cmdb-agent",
      promptTemplate := some "How many {args} are in the CMDB" },
    { name := "/ci-details", description := "Get full CI details",
      category := .cmdb, paramHint := some "<name or sys_id>",
      agentTarget := some "cmdb-agent",
      promptTemplate := some "Show details for CI: {args}" },
    { name := "/ci-history", description := "CI change history",
      category := .cmdb, paramHint := some "<name or sys_id>",
      agentTarget := some "cmdb-agent",
      promptTemplate := some "Show the change history of CI: {args}" },
    { name := "/ci-relations", description := "Show CI relationships",
      category := .cmdb, paramHint := some "<name or sys_id>",
      agentTarget := some "cmdb-agent",
      promptTemplate := some "Show the relationships for configuration item: {args}" },
    { name := "/ci-dependencies", description := "Show CI dependency tree",
      category := .cmdb, paramHint := some "<name or sys_id>",
      agentTarget := some "cmdb-agent",
      promptTemplate := some "Show the dependency tree for CI: {args}" },
    { name := "/ci-impact", description := "Analyze change impact on a CI",
      category := .cmdb, paramHint := some "<name or sys_id>",
      agentTarget := some "cmdb-agent",
      promptTemplate := some "Analyze the impact analysis of changes to CI: {args}" },
    { name := "/ci-types", description := "List available CI types",
      category := .cmdb, agentTarget := some "cmdb-agent",
      promptTemplate := some "List all available CI types and their fields" },
    { name := "/cmdb-health", description := "CMDB health metrics & KPIs",
      category := .cmdb, paramHint := some "[ci type]",
      agentTarget := some "cmdb-agent",
      promptTemplate := some "Show the CMDB health metrics for {args}" },
    { name := "/cmdb-trend", description := "CMDB health trend report",
      category := .cmdb, agentTarget := some "cmdb-agent",
      promptTemplate := some "Show the CMDB health trend report over time" },
    { name := "/cmdb-compliance", description := "Run compliance check",
      category := .cmdb, paramHint := some "[ci type]",
      agentTarget := some "cmdb-agent",
      promptTemplate := some "Run a CMDB compliance check on {args}" },
    { name := "/cmdb-stale", description := "Find stale CIs",
      category := .cmdb, paramHint := some "[ci type]",
      agentTarget := some "cmdb-agent",
      promptTemplate := some "Find stale {args} in the CMDB" },
    { name := "/cmdb-duplicates", description := "Find duplicate CIs",
      category := .cmdb, paramHint := some "[ci type]",
      agentTarget := some "cmdb-agent",
      promptTemplate := some "Find duplicate {args} in the CMDB" },
    { name := "/cmdb-reconcile", description := "Run data reconciliation",
      category := .cmdb, paramHint := some "[ci type]",
      agentTarget := some "cmdb-agent",
      promptTemplate := some "Run CMDB data reconciliation on {args}" },
    { name := "/cmdb-audit", description := "Audit summary & stats",
      category := .cmdb, agentTarget := some "cmdb-agent",
      promptTemplate := some "Show the CMDB audit summary and statistics" },
    { name := "/cmdb-activity", description := "Recent CI activity log",
      category := .cmdb, paramHint := some "[ci type]",
      agentTarget := some "cmdb-agent",
      promptTemplate := some "Show recent activity log for {args}" },
    { name := "/cmdb-dashboard", description := "Operational dashboard",
      category := .cmdb, agentTarget := some "cmdb-agent",
      promptTemplate := some "Show the CMDB operational dashboard" },
    { name := "/cmdb-ire", description := "IRE rules & CI classes",
      category := .cmdb, paramHint := some "[ci class]",
      agentTarget := some "cmdb-agent",
      promptTemplate := some "Show the IRE rules for CI class: {args}" },
    { name := "/cmdb-rel-types", description := "List relationship types",
      category := .cmdb, agentTarget := some "cmdb-agent",
      promptTemplate := some "List all available relationship types in the CMDB" },
    { name := "/mcp-health", description := "MCP server health check",
      category := .cmdb, agentTarget := some "cmdb-agent",
      promptTemplate := some "Run an MCP server health check" },
    { name := "/help", description := "Show all available commands",
      category := .general, agentTarget := none },
    { name := "/clear", description := "Clear conversation",
      category := .general, agentTarget := none },
    { name := "/export", description := "Export conversation",
      category := .general, paramHint := some "[format]",
      agentTarget := none },
    { name := "/agents", description := "List available agents with status",
      category := .general, agentTarget := some "orchestrator",
      promptTemplate := some "List all available ITOM agents and their current status" } ]

/-- JS `trimmed.indexOf(' ')` split: the text before the first space and,
when a space exists, the text after it. -/
def splitFirstSpace : List Char → List Char × Option (List Char)
  | [] => ([], none)
  | c :: rest =>
      if c = ' ' then ([], some rest)
      else
        let r := splitFirstSpace rest
        (c :: r.1, r.2)

/-- `parseCommand` (`commands.ts` lines 295-309): trim, require a leading
`/`, split at the first space into name and (trimmed) args, and look the
lower-cased name up in the registry. -/
def parseCommand (message : String) : Option (SlashCommand × String) :=
  let trimmed := jsTrim message
  if ¬ startsWithStr "/" trimmed then none
  else
    let sp := splitFirstSpace trimmed.toList
    let name := String.mk sp.1
    let args :=
      match sp.2 with
      | none => ""
      | some rest => jsTrim (String.mk rest)
    match commands.find? (fun cmd => cmd.name = lowerStr name) with
    | none => none
    | some cmd => some (cmd, args)

/-- Try to match `KEYWORD\s*{args}` at the head of `l`; on success return
the text after the match. -/
def matchCore (kw : List Char) (l : List Char) : Option (List Char) :=
  match l.dropPrefix? kw with
  | none => none
  | some rest => (rest.dropWhile isJsWs).dropPrefix? "{args}".toList

/-- Find the leftmost occurrence of `KEYWORD\s*{args}`; return the text
before it and the text after it. -/
def findCore (kw : List Char) : List Char → Option (List Char × List Char)
  | [] =>
      match matchCore kw [] with
      | some rest => some ([], rest)
      | none => none
  | c :: l =>
      match matchCore kw (c :: l) with
      | some rest => some ([], rest)
      | none =>
          match findCore kw l with
          | some r => some (c :: r.1, r.2)
          | none => none

/-- One `template.replace(/\s*KEYWORD\s*\{args\}/, '')` step: remove the
first occurrence of the pattern, where the leading `\s*` (leftmost-greedy)
absorbs the whole whitespace run immediately before the keyword. -/
def stripKeywordArgs (kw : String) (s : String) : String :=
  match findCore kw.toList s.toList with
  | none => s
  | some r => String.mk (r.1.reverse.dropWhile isJsWs).reverse ++ String.mk r.2

/-- Fuel-driven worker for `removeAllArgs` (structural recursion on the
fuel so that the kernel can evaluate it; the fuel is the input length,
which strictly bounds the number of steps). -/
def removeAllArgsAux : Nat → List Char → List Char
  | 0, l => l
  | _ + 1, [] => []
  | n + 1, c :: l =>
      if "{args}".toList.isPrefixOf (c :: l) then removeAllArgsAux n (l.drop 5)
      else c :: removeAllArgsAux n l

/-- `template.replace(/\{args\}/g, '')`: remove every occurrence. -/
def removeAllArgs (l : List Char) : List Char :=
  removeAllArgsAux l.length l

/-- JS `template.replace('{args}', args)`: replace the first occurrence
only. -/
def replaceFirstArgs (args : String) : List Char → List Char
  | [] => []
  | c :: l =>
      if "{args}".toList.isPrefixOf (c :: l) then args.toList ++ l.drop 5
      else c :: replaceFirstArgs args l

/-- `buildPrompt` (`commands.ts` lines 315-330). With no args, the chain
of regex replacements strips `targeting/on/for/matching:/item:/class:`
prepositions together with the `{args}` placeholder, then removes any
remaining placeholders and trims. -/
def buildPrompt (command : SlashCommand) (args : String) : String :=
  match command.promptTemplate with
  | none => if args = "" then command.description else args
  | some tpl =>
      if args = "" then
        let stripped :=
          stripKeywordArgs "class:"
            (stripKeywordArgs "item:"
              (stripKeywordArgs "matching:"
                (stripKeywordArgs "for"
                  (stripKeywordArgs "on"
                    (stripKeywordArgs "targeting" tpl)))))
        jsTrim (String.mk (removeAllArgs stripped.toList))
      else String.mk (replaceFirstArgs args tpl.toList)

/-! ## Chat session orchestration (`contexts/ChatContext.tsx`)

Timestamps are `Nat` parameters (`Date.now()` / `new Date().toISOString()`
collapsed to one clock); the random id suffixes are abstracted away, so a
client-generated id is modelled by its deterministic stem plus the clock
value. Conversation ids are modelled by a fresh-supply counter
(`generateConversationId` returns a fresh UUID in the source). -/

/-- `MessageRole` from `types/message.ts`. -/
inductive MessageRole where
  | user
  | assistant
  | system
deriving Repr, DecidableEq

/-- `SuggestedAction` pill (never constructed by the orchestration paths
modelled here; `handleStreamEnd` receives no actions from the hook). -/
structure SuggestedAction where
  label : String
  prompt : String
deriving Repr, DecidableEq

/-- `Message` from `types/message.ts` (the fields the orchestration layer
reads and writes; `artifacts` are never touched by it). -/
structure Message where
  id : String
  role : MessageRole
  content : String
  timestamp : Nat
  agentId : Option String := none
  suggestedActions : Option (List SuggestedAction) := none
deriving Repr, DecidableEq

/-- The active clarification slot of `ChatState`. -/
structure ClarificationSlot where
  question : String
  options : List String
  pendingToken : String
deriving Repr, DecidableEq

/-- The ChatProvider's own state: conversation id, message history, the
non-streaming in-flight flag, the error slot and the clarification slot,
plus the fresh-id supply for `generateConversationId`. -/
structure ChatStateM where
  conversationId : Option Nat
  nextConvId : Nat
  messages : List Message
  isLoading : Bool
  error : Option String
  clarification : Option ClarificationSlot
deriving Repr, DecidableEq

/-- The composite state of one mounted `ChatProvider`: its own state plus
the embedded `useStreamingResponse` hook state. -/
structure ProviderState where
  chat : ChatStateM
  hook : HookState

/-- `isStreaming` (`ChatContext.tsx` lines 243-244): derived from the hook
status. -/
def isStreamingP (h : HookState) : Bool :=
  h.state.status = .connecting ∨ h.state.status = .streaming

/-- Externally visible side effects issued by the orchestration layer. -/
inductive ChatEffect where
  | wsBroadcast (conversationId : Nat) (content : String) (role : MessageRole)
  | streamRequest (r : StreamRequest)
  | clarifyRequest (pending_message_token : String)
      (clarification_answer : String) (conversation_id : Nat)
  | exportDownload (filename : String)
deriving Repr, DecidableEq

/-- `handleStreamEnd` (`ChatContext.tsx` lines 195-210): append the
finalized assistant message; `agentId: agentId || undefined` is the JS
falsy conversion. -/
def applyStreamEnd (now : Nat) (fullContent messageId agentId : String)
    (cs : ChatStateM) : ChatStateM :=
  let m : Message :=
    { id := messageId
      role := .assistant
      content := fullContent
      timestamp := now
      agentId := if agentId = "" then none else some agentId
      suggestedActions := none }
  { cs with messages := cs.messages ++ [m] }

/-- `handleStreamError` (`ChatContext.tsx` lines 212-218): surface the
error string and clear the loading flag; history untouched. -/
def applyStreamError (e : StreamErrorData) (cs : ChatStateM) : ChatStateM :=
  { cs with error := some ("Stream error (" ++ e.code ++ "): " ++ e.message)
            isLoading := false }

/-- `handleClarification` (`ChatContext.tsx` lines 220-229). Dead in the
running system: `useStreamingResponse` has no `onClarification` option and
never invokes it (see the `processEvent` default case). -/
def applyClarification (d : ClarificationData) (cs : ChatStateM) : ChatStateM :=
  let slot : ClarificationSlot :=
    { question := d.question, options := d.options,
      pendingToken := d.pending_message_token }
  { cs with clarification := some slot }

/-- ChatProvider's dispatch of one hook callback (it registers
`onStreamEnd` and `onError`; `onStreamStart`/`onToken` are not passed, so
those invocations are no-ops on the chat state). -/
def applyStreamCallback (now : Nat) (cs : ChatStateM) :
    StreamCallback → ChatStateM
  | .onStreamEnd fc mid aid => applyStreamEnd now fc mid aid cs
  | .onError e => applyStreamError e cs
  | .onStreamStart _ _ => cs
  | .onToken _ _ => cs

/-- `|a - b|` on the `Nat` clock. -/
def distNat (a b : Nat) : Nat := max a b - min a b

/-- The websocket `onMessage` chat branch (`ChatContext.tsx` lines
274-311): accept only assistant broadcasts for the active conversation;
dedup by content + role + a 5s recency window; otherwise append. -/
def applyWsChat (now : Nat) (convId : Nat) (content : String)
    (role : MessageRole) (agentId : Option String) (cs : ChatStateM) :
    ChatStateM :=
  if cs.conversationId = some convId ∧ role = .assistant then
    let isDuplicate := cs.messages.any fun m =>
      m.content = content ∧ m.role = role ∧ distNat m.timestamp now < 5000
    if isDuplicate then cs
    else
      { cs with messages := cs.messages ++
          [{ id := "ws-" ++ toString now, role := role, content := content,
             timestamp := now, agentId := agentId }] }
  else cs

/-- `respondToClarification`, synchronous part (`ChatContext.tsx` lines
315-349): guarded on an active clarification and conversation; clears the
clarification slot, sets loading, clears the error, appends the user's
answer as a user message, and issues the `POST /api/chat/clarify`
request carrying the original `pendingToken`. -/
def respondToClarificationOp (now : Nat) (answer : String)
    (s : ProviderState) : ProviderState × List ChatEffect :=
  match s.chat.clarification, s.chat.conversationId with
  | some cl, some convId =>
      let userMsg : Message :=
        { id := "user-" ++ toString now, role := .user, content := answer,
          timestamp := now }
      ({ s with chat :=
           { s.chat with clarification := none, isLoading := true,
                         error := none,
                         messages := s.chat.messages ++ [userMsg] } },
       [.clarifyRequest cl.pendingToken answer convId])
  | _, _ => (s, [])

/-- Outcome of the clarify request (`ChatContext.tsx` lines 351-403):
HTTP failure / missing body, successful stream with the accumulated
`fullContent`, or a transport failure caught by `.catch`. -/
inductive ClarifyOutcome where
  | httpFail
  | success (fullContent : String)
  | networkFail
deriving Repr, DecidableEq

/-- `respondToClarification`, asynchronous continuation: surface errors or
append the assistant message when the streamed content is non-empty
(`if (fullContent) ...`), then clear the loading flag. -/
def applyClarifyOutcome (now : Nat) (o : ClarifyOutcome) (cs : ChatStateM) :
    ChatStateM :=
  match o with
  | .httpFail =>
      { cs with error := some "Failed to resolve clarification.", isLoading := false }
  | .networkFail =>
      { cs with error := some "Network error during clarification.", isLoading := false }
  | .success fc =>
      if fc = "" then { cs with isLoading := false }
      else
        { cs with isLoading := false,
                  messages := cs.messages ++
                    [{ id := "assist-" ++ toString now, role := .assistant,
                       content := fc, timestamp := now }] }

/-- `buildHelpText` (`commands.ts` lines 335-358). -/
def buildHelpLine (cmd : SlashCommand) : String :=
  "  " ++ cmd.name ++
    (match cmd.paramHint with
     | some p => " " ++ p
     | none => "") ++ "  —  " ++ cmd.description

/-- `buildHelpText`, section assembly: group by category in registry
order, emit the three categories in the fixed order, join with blank
lines. -/
def buildHelpText : String :=
  let sections := [CommandCategory.itom, .cmdb, .general].filterMap fun c =>
    let cmds := commands.filter (fun cmd => cmd.category = c)
    if cmds.isEmpty then none
    else some ("**" ++ categoryLabels c ++ "**\n"
                ++ String.intercalate "\n" (cmds.map buildHelpLine))
  String.intercalate "\n\n" sections

/-- The shared tail of `sendMessage` for a message routed to the backend
(`ChatContext.tsx` lines 471-489 for agent commands, 493-519 for free
text): append the optimistic user message with the ORIGINAL text, clear
the error, broadcast over the websocket, and hand the prompt to
`startStreaming`. `setIsLoading(true)` is immediately followed by
`setIsLoading(false)` after the synchronous `startStreaming` call, so the
settled value is `false`. -/
def sendToBackend (now : Nat) (originalContent prompt : String)
    (convId : Nat) (agentTarget : Option String) (s : ProviderState) :
    ProviderState × List ChatEffect :=
  let userMsg : Message :=
    { id := "user-" ++ toString now, role := .user,
      content := originalContent, timestamp := now }
  let hr := startStreamingH prompt convId agentTarget s.hook
  ({ chat := { s.chat with messages := s.chat.messages ++ [userMsg],
                           isLoading := false, error := none }
     hook := hr.1 },
   [.wsBroadcast convId originalContent .user, .streamRequest hr.2])

/-- `sendMessage` (`ChatContext.tsx` lines 408-522). Guard: no-op while a
non-streaming request is outstanding, while streaming, or without a
conversation id. Then slash-command dispatch: `/clear`, `/help` and
`/export` are handled locally; a matched command with an agent target is
expanded via `buildPrompt` and routed to that agent; anything else (no
command, or a matched client-side command with an unrecognized name
falling through) is sent as raw text with the optional explicit agent
override. -/
def sendMessageOp (now : Nat) (content : String) (agentTarget : Option String)
    (s : ProviderState) : ProviderState × List ChatEffect :=
  if s.chat.conversationId = none ∨ s.chat.isLoading ∨ isStreamingP s.hook then
    (s, [])
  else
    let convId := s.chat.conversationId.getD 0
    match parseCommand content with
    | some pc =>
        match pc.1.agentTarget with
        | none =>
            if pc.1.name = "/clear" then
              ({ s with chat := { s.chat with messages := [] } }, [])
            else if pc.1.name = "/help" then
              ({ s with chat := { s.chat with messages := s.chat.messages ++
                   [{ id := "help-" ++ toString now, role := .assistant,
                      content := buildHelpText, timestamp := now }] } }, [])
            else if pc.1.name = "/export" then
              let format := if pc.2 = "" then "json" else pc.2
              ({ s with chat := { s.chat with messages := s.chat.messages ++
                   [{ id := "export-" ++ toString now, role := .assistant,
                      content := "Conversation exported as " ++ format ++ ".",
                      timestamp := now }] } },
               [.exportDownload ("conversation-" ++ toString convId ++ "."
                  ++ (if format = "json" then "json" else "txt"))])
            else sendToBackend now content content convId agentTarget s
        | some tgt =>
            sendToBackend now content (buildPrompt pc.1 pc.2) convId (some tgt) s
    | none => sendToBackend now content content convId agentTarget s

/-- `startNewConversation` (`ChatContext.tsx` lines 524-531): abort and
reset the stream, clear history, generate a fresh conversation id, clear
the error, stop loading. The clarification slot is NOT touched by this
function. -/
def startNewConversation (s : ProviderState) : ProviderState :=
  let chat' :=
    { s.chat with
      messages := ([] : List Message),
      conversationId := some s.chat.nextConvId,
      nextConvId := s.chat.nextConvId + 1,
      error := none,
      isLoading := false }
  { chat := chat', hook := resetStateH (abortStreamingH s.hook) }

/-- `loadConversation` (`ChatContext.tsx` lines 533-550), with the result
of `apiClient.getConversation` supplied as an `Except` (network is
external): on success replace the conversation id and history; on failure
surface the error; always stop loading afterwards. -/
def loadConversationOp (result : Except String (Nat × List Message))
    (s : ProviderState) : ProviderState :=
  let hook' := resetStateH (abortStreamingH s.hook)
  match result with
  | .ok r =>
      { chat := { s.chat with conversationId := some r.1, messages := r.2,
                              isLoading := false, error := none }
        hook := hook' }
  | .error msg =>
      { chat := { s.chat with error := some msg, isLoading := false }
        hook := hook' }

/-- The chat-session operations the claims quantify over. `streamEvt` is
the arrival of one decoded SSE event on the stream owned by controller
`cid` (its callbacks are dispatched into the chat state); `catchNetwork`
is the fetch promise rejecting. -/
inductive ChatOp where
  | send (now : Nat) (content : String) (agentTarget : Option String)
  | streamEvt (now cid : Nat) (ev : SSEEvent)
  | wsChat (now convId : Nat) (content : String) (role : MessageRole)
      (agentId : Option String)
  | clarifyAnswer (now : Nat) (answer : String)
  | clarifyOutcome (now : Nat) (o : ClarifyOutcome)
  | newConversation
  | load (result : Except String (Nat × List Message))
  | abortOp
  | catchNetwork (isAbortError : Bool) (msg : Option String)

/-- Apply one operation to the provider state, returning the issued
effects. -/
def applyOp : ChatOp → ProviderState → ProviderState × List ChatEffect
  | .send now c t, s => sendMessageOp now c t s
  | .streamEvt now cid ev, s =>
      let r := deliverEvent cid ev s.hook
      ({ chat := r.2.foldl (applyStreamCallback now) s.chat, hook := r.1 }, [])
  | .wsChat now cid c role a, s =>
      ({ s with chat := applyWsChat now cid c role a s.chat }, [])
  | .clarifyAnswer now ans, s => respondToClarificationOp now ans s
  | .clarifyOutcome now o, s =>
      ({ s with chat := applyClarifyOutcome now o s.chat }, [])
  | .newConversation, s => (startNewConversation s, [])
  | .load r, s => (loadConversationOp r s, [])
  | .abortOp, s => ({ s with hook := abortStreamingH s.hook }, [])
  | .catchNetwork ab m, s =>
      let r := handleCatch ab m s.hook
      ({ chat := r.2.foldl (applyStreamCallback 0) s.chat, hook := r.1 }, [])

/-- Whether an operation is one of the whole-conversation clears/resets
the history invariant exempts: the `/clear` command, starting a new
conversation, or loading a conversation. -/
def isHistoryReset : ChatOp → Bool
  | .send _ c _ =>
      match parseCommand c with
      | some pc => pc.1.agentTarget = none ∧ pc.1.name = "/clear"
      | none => false
  | .newConversation => true
  | .load _ => true
  | _ => false

/-! ## Sample states used to instantiate the theorems on concrete inputs -/

/-- Empty per-controller accumulator table. -/
def emptyAccs : Nat → String := fun _ => ""

/-- A freshly mounted hook: `INITIAL_STATE`, no controller yet. -/
def idleHookState : HookState :=
  { state := INITIAL_STATE, currentCtrl := none, aborted := [], nextCtrl := 0,
    accs := emptyAccs }

/-- A hook in the middle of a stream (controller 0 live). -/
def streamingHookState : HookState :=
  { state := { INITIAL_STATE with status := .streaming }, currentCtrl := some 0,
    aborted := [], nextCtrl := 1, accs := emptyAccs }

/-- A hook whose stream has completed. -/
def completeHookState : HookState :=
  { state := { INITIAL_STATE with status := .complete }, currentCtrl := none,
    aborted := [0], nextCtrl := 1, accs := emptyAccs }

/-- A quiescent chat state on conversation 3. -/
def baseChat : ChatStateM :=
  { conversationId := some 3, nextConvId := 4, messages := [],
    isLoading := false, error := none, clarification := none }

/-- Chat state with a non-streaming request outstanding. -/
def loadingChat : ChatStateM := { baseChat with isLoading := true }

/-- A sample clarification slot. -/
def sampleClarification : ClarificationSlot :=
  { question := "Which domain?", options := ["cmdb", "itom"],
    pendingToken := "tok-1" }

/-- Chat state with an active clarification. -/
def clarifiedChat : ChatStateM :=
  { baseChat with clarification := some sampleClarification }

/-- Provider state: quiescent chat over a live stream. -/
def baseProvider : ProviderState :=
  { chat := baseChat, hook := streamingHookState }

/-- Provider state: active clarification over a live stream. -/
def clarifiedProvider : ProviderState :=
  { chat := clarifiedChat, hook := streamingHookState }

/-- Provider state: active clarification, idle hook. -/
def clarifiedIdleProvider : ProviderState :=
  { chat := clarifiedChat, hook := idleHookState }

/-! ## Theorems -/

/-- C1: the specification states that in status `connecting`/`streaming` a
decoded `clarification` event moves the StreamingState to status
`clarification`, captures `{question, options, pendingToken}` and invokes
the clarification callback. The hook's event switch has no `clarification`
case: the event falls into `default:` and is ignored — the state (whatever
its status) is returned unchanged, nothing is captured, and no callback of
any kind is invoked, so `ChatContext.handleClarification` never runs. -/
theorem clarification_event_is_ignored (acc : String) (st : StreamingState)
    (q : Option String) (opts : List String) (tok : Option String) :
    processEvent acc st (.clarification q opts tok) = (acc, st, []) := rfl

/-- C3: streaming the tokens `"Found "`, `"42 "`, `"servers"` accumulates
`partialContent = "Found 42 servers"` before `stream_end`; at `stream_end`
without a server `full_content` the final `fullContent` is the locally
accumulated text and the completion callback fires with
`(fullContent, messageId, agentId)`; and with a server-provided
`full_content` the final `fullContent` is exactly that value. -/
theorem token_accumulation_and_stream_end :
    (runEvents "" { INITIAL_STATE with status := .connecting }
        [.stream_start (some "M1") (some "cmdb-agent"),
         .token (some "Found "), .token (some "42 "),
         .token (some "servers")]).2.1.partialContent = "Found 42 servers"
    ∧ (runEvents "" { INITIAL_STATE with status := .connecting }
        [.stream_start (some "M1") (some "cmdb-agent"),
         .token (some "Found "), .token (some "42 "), .token (some "servers"),
         .stream_end none (some "M1") (some "cmdb-agent")]).2.1.fullContent
        = some "Found 42 servers"
    ∧ (runEvents "" { INITIAL_STATE with status := .connecting }
        [.stream_start (some "M1") (some "cmdb-agent"),
         .token (some "Found "), .token (some "42 "), .token (some "servers"),
         .stream_end none (some "M1") (some "cmdb-agent")]).2.2.getLast?
        = some (.onStreamEnd "Found 42 servers" "M1" "cmdb-agent")
    ∧ ∀ (acc fc : String) (st : StreamingState) (mid aid : Option String),
        (processEvent acc st (.stream_end (some fc) mid aid)).2.1.fullContent
          = some fc
        ∧ (processEvent acc st (.stream_end (some fc) mid aid)).2.2
          = [.onStreamEnd fc (mid.getD "") (aid.getD "")] := by
  refine ⟨by decide, by decide, by decide, ?_⟩
  intro acc fc st mid aid
  exact ⟨rfl, rfl⟩

/-- C7 counterexample: the claim asserts that `/ci-search` with no
arguments expands to `"Search for configuration items matching:"`
(trimmed). It does not: the stripping regex removes the whole
`" matching: {args}"` production, keyword included. -/
theorem ci_search_no_args_keeps_no_colon :
    buildPrompt ciSearchCommand "" = "Search for configuration items"
    ∧ ¬ buildPrompt ciSearchCommand ""
        = "Search for configuration items matching:" := by
  constructor
  · decide
  · decide

/-- C7 (amended): `/ci-search web-01` parses to the `/ci-search` registry
entry with args `"web-01"`, expands to exactly
`"Search for configuration items matching: web-01"`, routed to agent
`"cmdb-agent"`; with no arguments the expansion strips the
`" matching: {args}"` production entirely, yielding
`"Search for configuration items"`. -/
theorem ci_search_expansion :
    parseCommand "/ci-search web-01" = some (ciSearchCommand, "web-01")
    ∧ buildPrompt ciSearchCommand "web-01"
      = "Search for configuration items matching: web-01"
    ∧ ciSearchCommand.agentTarget = some "cmdb-agent"
    ∧ parseCommand "/ci-search" = some (ciSearchCommand, "")
    ∧ buildPrompt ciSearchCommand "" = "Search for configuration items" := by
  refine ⟨by decide, by decide, rfl, by decide, by decide⟩

/-- C10: `sendMessage` is a complete no-op — state identical and no
effect issued (no optimistic append, no error/streaming/clarification
change, no network request, no websocket broadcast) — whenever a
non-streaming request is outstanding, a stream is active, or no
conversation id is set. -/
theorem send_message_guard (now : Nat) (content : String)
    (agentTarget : Option String) (s : ProviderState)
    (h : s.chat.conversationId = none ∨ s.chat.isLoading ∨ isStreamingP s.hook) :
    sendMessageOp now content agentTarget s = (s, []) := by
  unfold sendMessageOp
  rw [if_pos h]

/-- C10 witness: the guard taken on a concrete loading state. -/
theorem send_message_guard_witness :
    (loadingChat.isLoading = true)
    ∧ sendMessageOp 0 "hello" none { chat := loadingChat, hook := idleHookState }
      = ({ chat := loadingChat, hook := idleHookState }, []) :=
  ⟨by decide,
   send_message_guard 0 "hello" none _ (Or.inr (Or.inl (by decide)))⟩

/-- C2: starting a second stream while one is in flight aborts the first
stream's controller, installs a single fresh live controller, and any
event of the first stream delivered after that point (its `read()`
rejects with `AbortError`) leaves the hook state — in particular the one
visible `StreamingState` — unchanged and invokes no callback. -/
theorem single_flight (s0 : HookState) (c1 c2 : String) (v1 v2 : Nat)
    (t1 t2 : Option String) (ev : SSEEvent) :
    (startStreamingH c1 v1 t1 s0).1.currentCtrl = some s0.nextCtrl
    ∧ s0.nextCtrl ∈
        (startStreamingH c2 v2 t2 (startStreamingH c1 v1 t1 s0).1).1.aborted
    ∧ deliverEvent s0.nextCtrl ev
        (startStreamingH c2 v2 t2 (startStreamingH c1 v1 t1 s0).1).1
      = ((startStreamingH c2 v2 t2 (startStreamingH c1 v1 t1 s0).1).1, []) := by
  refine ⟨rfl, ?_, ?_⟩
  · simp [startStreamingH]
  · have hmem : s0.nextCtrl ∈
        (startStreamingH c2 v2 t2 (startStreamingH c1 v1 t1 s0).1).1.aborted := by
      simp [startStreamingH]
    unfold deliverEvent
    rw [if_pos hmem]

/-- C5: `cancel()` while `connecting`/`streaming` puts the StreamingState
into `error` with code `STREAM_ABORTED` and is a no-op on the state in any
other status; a rejected (non-abort) transport promise yields
`NETWORK_ERROR`; and neither path appends anything to the conversation
history (the abort path invokes no callbacks at all, and the provider's
stream-error handler only touches the error slot and the loading flag). -/
theorem cancel_vs_network_error :
    (∀ s : HookState,
        s.state.status = .connecting ∨ s.state.status = .streaming →
        (abortStreamingH s).state.status = .error
        ∧ (abortStreamingH s).state.error =
            some { code := "STREAM_ABORTED",
                   message := "Streaming was cancelled by the user." })
    ∧ (∀ s : HookState,
        s.state.status ≠ .connecting → s.state.status ≠ .streaming →
        (abortStreamingH s).state = s.state)
    ∧ (∀ (s : HookState) (m : Option String),
        (handleCatch false m s).1.state.status = .error
        ∧ (handleCatch false m s).1.state.error =
            some { code := "NETWORK_ERROR",
                   message := m.getD "A network error occurred while streaming." })
    ∧ (∀ ps : ProviderState,
        (applyOp .abortOp ps).1.chat.messages = ps.chat.messages)
    ∧ (∀ (ps : ProviderState) (b : Bool) (m : Option String),
        (applyOp (.catchNetwork b m) ps).1.chat.messages = ps.chat.messages) := by
  refine ⟨?_, ?_, ?_, ?_, ?_⟩
  · intro s h
    have hc : s.state.status = .streaming ∨ s.state.status = .connecting :=
      h.symm
    unfold abortStreamingH
    rw [if_pos hc]
    exact ⟨rfl, rfl⟩
  · intro s h1 h2
    have hc : ¬ (s.state.status = .streaming ∨ s.state.status = .connecting) := by
      intro hco
      cases hco with
      | inl hl => exact h2 hl
      | inr hr => exact h1 hr
    simp only [abortStreamingH, if_neg hc]
  · intro s m
    exact ⟨rfl, rfl⟩
  · intro ps
    rfl
  · intro ps b m
    cases b <;> rfl

/-- C5 witness: the theorem applied at a streaming hook, an already
complete hook, and a concrete provider state. -/
theorem cancel_vs_network_error_witness :
    ((abortStreamingH streamingHookState).state.status = .error
      ∧ (abortStreamingH streamingHookState).state.error =
          some { code := "STREAM_ABORTED",
                 message := "Streaming was cancelled by the user." })
    ∧ (abortStreamingH completeHookState).state = completeHookState.state
    ∧ (applyOp .abortOp baseProvider).1.chat.messages = baseProvider.chat.messages :=
  ⟨cancel_vs_network_error.1 streamingHookState (Or.inr rfl),
   cancel_vs_network_error.2.1 completeHookState (by decide) (by decide),
   cancel_vs_network_error.2.2.2.1 baseProvider⟩

/-- C6 counterexample: the claim states that starting a new conversation
clears the active clarification. `startNewConversation` never touches the
clarification slot: on a state with an active clarification the slot is
still active (and unchanged) afterwards. -/
theorem new_conversation_keeps_clarification :
    (startNewConversation clarifiedIdleProvider).chat.clarification
      = some sampleClarification
    ∧ (startNewConversation clarifiedIdleProvider).chat.clarification ≠ none :=
  ⟨rfl, by decide⟩

/-- C6 (amended): starting a new conversation cancels any in-flight
stream (the live controller is aborted), resets the streaming state to
`INITIAL_STATE` (idle), clears the message history and the error slot,
stops loading, and assigns a fresh conversation id distinct from the
previous one — but the active clarification slot is left unchanged, not
cleared. -/
theorem new_conversation_resets (s : ProviderState) :
    (startNewConversation s).chat.messages = []
    ∧ (startNewConversation s).chat.error = none
    ∧ (startNewConversation s).chat.isLoading = false
    ∧ (startNewConversation s).hook.state = INITIAL_STATE
    ∧ (startNewConversation s).hook.currentCtrl = none
    ∧ (∀ c, s.hook.currentCtrl = some c →
        c ∈ (startNewConversation s).hook.aborted)
    ∧ (startNewConversation s).chat.conversationId = some s.chat.nextConvId
    ∧ (∀ k, s.chat.conversationId = some k → k < s.chat.nextConvId →
        (startNewConversation s).chat.conversationId ≠ some k)
    ∧ (startNewConversation s).chat.clarification = s.chat.clarification := by
  refine ⟨rfl, rfl, rfl, rfl, rfl, ?_, rfl, ?_, rfl⟩
  · intro c hc
    simp [startNewConversation, resetStateH, abortStreamingH, hc]
  · intro k hk hlt h
    simp only [startNewConversation] at h
    have : s.chat.nextConvId = k := by
      simpa using h
    omega

/-- C6 witness: the amended theorem at a concrete state with a live
controller and an old conversation id. -/
theorem new_conversation_resets_witness :
    (0 ∈ (startNewConversation clarifiedProvider).hook.aborted)
    ∧ (startNewConversation clarifiedProvider).chat.conversationId ≠ some 3 :=
  ⟨(new_conversation_resets clarifiedProvider).2.2.2.2.2.1 0 rfl,
   (new_conversation_resets clarifiedProvider).2.2.2.2.2.2.2.1 3 rfl (by decide)⟩

/-- C8: the reconnect policy — three consecutive abnormal closures with
no successful open in between schedule delays of exactly 1s, 2s, 4s; the
delay is always capped at 30s (and reaches the cap from the fifth retry
on); a successful open resets the attempt counter to 0; a normal closure
(code 1000) schedules no reconnect; and once the attempt counter has
reached the bounded maximum (default 10) no reconnect is scheduled. -/
theorem reconnect_backoff :
    (∀ c1 c2 c3 : Nat, c1 ≠ 1000 → c2 ≠ 1000 → c3 ≠ 1000 → ∀ hb : Bool,
        (runCloses 10 [c1, c2, c3]
          { status := .connected, reconnectAttempts := 0,
            heartbeatActive := hb }).2 = [1000, 2000, 4000])
    ∧ (∀ n, getReconnectDelay n ≤ 30000)
    ∧ (∀ n, getReconnectDelay (5 + n) = 30000)
    ∧ (∀ s, (handleOpen s).reconnectAttempts = 0
        ∧ (handleOpen s).status = .connected)
    ∧ (∀ (maxAttempts : Nat) (s : WSState),
        (handleClose maxAttempts 1000 s).2 = none)
    ∧ (∀ (code k : Nat) (st : ConnectionStatus) (hb : Bool),
        (handleClose 10 code
          { status := st, reconnectAttempts := 10 + k,
            heartbeatActive := hb }).2 = none) := by
  refine ⟨?_, ?_, ?_, ?_, ?_, ?_⟩
  · intro c1 c2 c3 h1 h2 h3 hb
    simp [runCloses, handleClose, connectWS, getReconnectDelay,
      BASE_RECONNECT_DELAY_MS, MAX_RECONNECT_DELAY_MS, h1, h2, h3]
  · intro n
    exact Nat.min_le_right _ _
  · intro n
    have h32 : (32 : Nat) ≤ 2 ^ (5 + n) := by
      calc (32 : Nat) = 2 ^ 5 := by norm_num
        _ ≤ 2 ^ (5 + n) := Nat.pow_le_pow_right (by norm_num) (by omega)
    have hbig : (30000 : Nat) ≤ 1000 * 2 ^ (5 + n) := by
      have := Nat.mul_le_mul_left 1000 h32
      omega
    simpa [getReconnectDelay, BASE_RECONNECT_DELAY_MS,
      MAX_RECONNECT_DELAY_MS] using Nat.min_eq_right hbig
  · intro s
    exact ⟨rfl, rfl⟩
  · intro maxAttempts s
    simp [handleClose]
  · intro code k st hb
    have hlt : ¬ (10 + k < 10) := by omega
    simp [handleClose, hlt]

/-- C8 witness: three abnormal closures with code 1006 on a fresh
connection, and the max-attempt cutoff at attempt 10. -/
theorem reconnect_backoff_witness :
    ((1006 : Nat) ≠ 1000)
    ∧ (runCloses 10 [1006, 1006, 1006]
        { status := .connected, reconnectAttempts := 0,
          heartbeatActive := true }).2 = [1000, 2000, 4000]
    ∧ (handleClose 10 1006
        { status := .disconnected, reconnectAttempts := 10 + 0,
          heartbeatActive := false }).2 = none :=
  ⟨by decide,
   reconnect_backoff.1 1006 1006 1006 (by decide) (by decide) (by decide) true,
   reconnect_backoff.2.2.2.2.2 1006 0 .disconnected false⟩

/-! ### Decoder chunking invariance (helper lemmas) -/

/-- `splitBlocks` never returns the empty list (JS `split` always yields
at least one element). -/
lemma splitBlocks_ne_nil (l : List Char) : splitBlocks l ≠ [] := by
  match l with
  | [] => simp [splitBlocks]
  | [c] => simp [splitBlocks]
  | c :: d :: rest =>
    simp only [splitBlocks]
    split
    · simp
    · split <;> simp

/-- If `splitBlocks` finds no delimiter, the single fragment is the whole
input. -/
lemma splitBlocks_singleton (l : List Char) :
    ∀ x, splitBlocks l = [x] → x = l := by
  induction l using splitBlocks.induct with
  | case1 =>
      intro x hx
      simpa [splitBlocks] using hx.symm
  | case2 c =>
      intro x hx
      simpa [splitBlocks] using hx.symm
  | case3 c d rest h ih =>
      intro x hx
      obtain ⟨rfl, rfl⟩ := h
      simp only [splitBlocks, and_self, if_true] at hx
      injection hx with h1 h2
      exact absurd h2 (splitBlocks_ne_nil rest)
  | case4 c d rest h heq ih =>
      exact absurd heq (splitBlocks_ne_nil _)
  | case5 c d rest h x xs heq ih =>
      intro y hy
      simp only [splitBlocks, if_neg h, heq] at hy
      injection hy with h1 h2
      subst h2
      have hx : x = d :: rest := ih x heq
      rw [← h1, hx]

/-- Splitting a concatenation: the blocks of `s ++ t` are the complete
blocks of `s` followed by the blocks of the trailing fragment of `s`
prepended to `t`. This is the key carry-over-buffer property. -/
lemma splitBlocks_append (s t : List Char) :
    splitBlocks (s ++ t) =
      (splitBlocks s).dropLast
        ++ splitBlocks ((splitBlocks s).getLastD [] ++ t) := by
  induction s using splitBlocks.induct with
  | case1 => simp [splitBlocks]
  | case2 c => simp [splitBlocks]
  | case3 c d rest h ih =>
      obtain ⟨rfl, rfl⟩ := h
      have hne := splitBlocks_ne_nil rest
      obtain ⟨b, B, hB⟩ : ∃ b B, splitBlocks rest = b :: B := by
        cases hB : splitBlocks rest with
        | nil => exact absurd hB hne
        | cons b B => exact ⟨b, B, rfl⟩
      have hsb : splitBlocks ('\n' :: '\n' :: rest) = [] :: splitBlocks rest := by
        simp only [splitBlocks, and_self, if_true]
      have hsbt : splitBlocks ('\n' :: '\n' :: (rest ++ t))
          = [] :: splitBlocks (rest ++ t) := by
        simp only [splitBlocks, and_self, if_true]
      rw [List.cons_append, List.cons_append, hsbt, hsb, hB,
        List.dropLast_cons₂, List.getLastD_cons]
      rw [hB] at ih
      rw [ih]
      rfl
  | case4 c d rest h heq ih =>
      exact absurd heq (splitBlocks_ne_nil _)
  | case5 c d rest h x xs heq ih =>
      cases xs with
      | nil =>
          have hx : x = d :: rest := splitBlocks_singleton _ x heq
          have hsb : splitBlocks (c :: d :: rest) = [c :: x] := by
            simp only [splitBlocks, if_neg h, heq]
          rw [hsb, hx]
          simp only [List.dropLast_single, List.getLastD_cons,
            List.getLastD_nil, List.nil_append, List.cons_append]
      | cons z zs =>
          have hih : splitBlocks (d :: (rest ++ t))
              = x :: ((z :: zs).dropLast
                        ++ splitBlocks (zs.getLastD z ++ t)) := by
            rw [heq] at ih
            simp only [List.dropLast_cons₂, List.getLastD_cons,
              List.cons_append] at ih
            exact ih
          have hsb : splitBlocks (c :: d :: rest) = (c :: x) :: z :: zs := by
            simp only [splitBlocks, if_neg h, heq]
          have hL : splitBlocks (c :: d :: (rest ++ t))
              = (c :: x) :: ((z :: zs).dropLast
                              ++ splitBlocks (zs.getLastD z ++ t)) := by
            simp only [splitBlocks, if_neg h, hih]
          simp only [List.cons_append, hL, hsb, List.dropLast_cons₂,
            List.getLastD_cons]

/-- The trailing fragment kept as the new buffer is itself delimiter-free:
splitting it again yields a single block. -/
lemma splitBlocks_lastFrag (l : List Char) :
    splitBlocks ((splitBlocks l).getLastD [])
      = [(splitBlocks l).getLastD []] := by
  induction l using splitBlocks.induct with
  | case1 => simp [splitBlocks]
  | case2 c => simp [splitBlocks]
  | case3 c d rest h ih =>
      obtain ⟨rfl, rfl⟩ := h
      have hsb : splitBlocks ('\n' :: '\n' :: rest) = [] :: splitBlocks rest := by
        simp only [splitBlocks, and_self, if_true]
      rw [hsb, List.getLastD_cons]
      exact ih
  | case4 c d rest h heq ih =>
      exact absurd heq (splitBlocks_ne_nil _)
  | case5 c d rest h x xs heq ih =>
      cases xs with
      | nil =>
          have hx : x = d :: rest := splitBlocks_singleton _ x heq
          have hsb : splitBlocks (c :: d :: rest) = [c :: x] := by
            simp only [splitBlocks, if_neg h, heq]
          rw [hsb, List.getLastD_cons, List.getLastD_nil, hx]
          rw [hsb, hx]
      | cons z zs =>
          have hsb : splitBlocks (c :: d :: rest) = (c :: x) :: z :: zs := by
            simp only [splitBlocks, if_neg h, heq]
          rw [heq] at ih
          simp only [List.getLastD_cons] at ih
          rw [hsb, List.getLastD_cons, List.getLastD_cons]
          exact ih

/-- The decoder loop emits exactly the complete blocks of the
concatenation of buffer and all chunks, provided the starting buffer is
delimiter-free (it always is: it is a trailing fragment, `""` at start). -/
lemma runDecoder_emitted (chunks : List (List Char)) :
    ∀ buffer, splitBlocks buffer = [buffer] →
    (runDecoder buffer chunks).1
      = (splitBlocks (buffer ++ chunks.flatten)).dropLast := by
  induction chunks with
  | nil =>
      intro buffer h
      simp [runDecoder, h]
  | cons chunk rest ih =>
      intro buffer h
      simp only [runDecoder]
      rw [ih _ (splitBlocks_lastFrag (buffer ++ chunk))]
      have hne : splitBlocks
          ((splitBlocks (buffer ++ chunk)).getLastD [] ++ rest.flatten) ≠ [] :=
        splitBlocks_ne_nil _
      rw [List.flatten_cons, ← List.append_assoc,
        splitBlocks_append (buffer ++ chunk) rest.flatten,
        List.dropLast_append_of_ne_nil _ hne]

/-- C4: the decode pipeline is invariant under re-chunking — any two ways
of cutting the same event-stream text into ordered chunks produce the
identical sequence of decoded events, for every JSON parser. -/
theorem decoder_chunk_invariance {α : Type} (jsonParse : String → Option α)
    (chunks1 chunks2 : List (List Char))
    (h : chunks1.flatten = chunks2.flatten) :
    decodeStream jsonParse chunks1 = decodeStream jsonParse chunks2 := by
  unfold decodeStream
  rw [runDecoder_emitted chunks1 [] rfl, runDecoder_emitted chunks2 [] rfl, h]

/-- C4 witness: a two-chunk split with the boundary inside an event block
decodes identically to the unsplit stream. -/
theorem decoder_chunk_invariance_witness :
    ([("data: a\n").toList, ("\ndata: b\n\n").toList].flatten
      = [("data: a\n\ndata: b\n\n").toList].flatten)
    ∧ decodeStream (fun s => some s)
        [("data: a\n").toList, ("\ndata: b\n\n").toList]
      = decodeStream (fun s => some s) [("data: a\n\ndata: b\n\n").toList] :=
  ⟨by decide, decoder_chunk_invariance _ _ _ (by decide)⟩

/-! ### History append-only invariant (helper lemmas) -/

/-- Each single hook callback either appends one message or leaves the
history untouched. -/
lemma messages_le_applyStreamCallback (now : Nat) (cs : ChatStateM)
    (cb : StreamCallback) :
    cs.messages <+: (applyStreamCallback now cs cb).messages := by
  cases cb with
  | onStreamEnd fc mid aid =>
      simp only [applyStreamCallback, applyStreamEnd]
      exact List.prefix_append _ _
  | onError e => exact List.prefix_refl _
  | onStreamStart mid aid => exact List.prefix_refl _
  | onToken t a => exact List.prefix_refl _

/-- Dispatching any sequence of hook callbacks only ever extends the
history. -/
lemma messages_le_foldl (now : Nat) (cbs : List StreamCallback)
    (cs : ChatStateM) :
    cs.messages <+: (cbs.foldl (applyStreamCallback now) cs).messages := by
  induction cbs generalizing cs with
  | nil => exact List.prefix_refl _
  | cons cb cbs ih =>
      exact (messages_le_applyStreamCallback now cs cb).trans (ih _)

/-- C9: the message history is append-only. Under every chat-session
operation other than the whole-conversation clears/resets (`/clear`,
starting a new conversation, loading a conversation), the previous
history is a prefix of the new one — no message is ever removed or
replaced. -/
theorem history_append_only (op : ChatOp) (s : ProviderState)
    (h : isHistoryReset op = false) :
    s.chat.messages <+: (applyOp op s).1.chat.messages := by
  cases op with
  | send now content tgt =>
      simp only [isHistoryReset] at h
      simp only [applyOp, sendMessageOp]
      split
      · exact List.prefix_refl _
      · split
        · next pc hp =>
            rw [hp] at h
            split
            · next htgt =>
                split
                · next hname =>
                    simp [htgt, hname] at h
                · split
                  · simp only []
                    exact List.prefix_append _ _
                  · split
                    · simp only []
                      exact List.prefix_append _ _
                    · simp only [sendToBackend]
                      exact List.prefix_append _ _
            · simp only [sendToBackend]
              exact List.prefix_append _ _
        · simp only [sendToBackend]
          exact List.prefix_append _ _
  | streamEvt now cid ev =>
      simp only [applyOp]
      exact messages_le_foldl now _ s.chat
  | wsChat now cid content role agentId =>
      simp only [applyOp, applyWsChat]
      split
      · split
        · exact List.prefix_refl _
        · exact List.prefix_append _ _
      · exact List.prefix_refl _
  | clarifyAnswer now answer =>
      simp only [applyOp, respondToClarificationOp]
      split
      · exact List.prefix_append _ _
      · exact List.prefix_refl _
  | clarifyOutcome now o =>
      simp only [applyOp, applyClarifyOutcome]
      cases o with
      | httpFail => exact List.prefix_refl _
      | networkFail => exact List.prefix_refl _
      | success fc =>
          simp only []
          split
          · exact List.prefix_refl _
          · exact List.prefix_append _ _
  | newConversation => simp [isHistoryReset] at h
  | load result => simp [isHistoryReset] at h
  | abortOp => exact List.prefix_refl _
  | catchNetwork ab m =>
      simp only [applyOp]
      exact messages_le_foldl 0 _ s.chat

/-- C9 witness: a non-reset operation (a clarify-resolution outcome) on a
concrete state extends the history. -/
theorem history_append_only_witness :
    isHistoryReset (.clarifyOutcome 5 .httpFail) = false
    ∧ baseProvider.chat.messages <+:
        (applyOp (.clarifyOutcome 5 .httpFail) baseProvider).1.chat.messages :=
  ⟨rfl, history_append_only (.clarifyOutcome 5 .httpFail) baseProvider rfl⟩

end ItomChat
